import Mathlib

/-!
Verification of the lighting-control core of the LED copper string
controller (`src/firmware/src/main.c`) against its natural-language
specification.  The C code is shallowly embedded: machine integers are
modelled as `Nat`/`Int` with explicit truncation (`% 2^w`) where the C
types can wrap, C `int32_t` division (truncation toward zero) is
`Int.tdiv`, and the Zephyr delayed-work items are modelled as explicit
"pending" flags plus step functions that mirror the work handlers.
-/

namespace LedCopper

/- ==========================================================================
   Battery discharge curve (`lipo_discharge_curve`, `battery_mv_to_percent`)
   ========================================================================== -/

/-- The LiPo discharge calibration table from `src/firmware/src/main.c`:
each entry is `(millivolts, percent)`, in the table's order. -/
def lipo_discharge_curve : List (Nat × Nat) :=
  [(4200, 100), (4150, 95), (4110, 90), (4080, 85), (4020, 80), (3980, 75),
   (3950, 70), (3910, 65), (3870, 60), (3840, 55), (3800, 50), (3760, 45),
   (3730, 40), (3690, 35), (3660, 30), (3620, 25), (3580, 20), (3500, 15),
   (3450, 10), (3300, 5), (3000, 0)]

/-- The interpolation loop of `battery_mv_to_percent`: walk adjacent pairs
of calibration points in table order and, at the first pair whose lower
point satisfies `mv >= v_low`, return
`p_low + ((mv - v_low) * (p_high - p_low)) / (v_high - v_low)`.
All quantities are nonnegative there, so `Nat` arithmetic is exact. -/
def battery_interp : List (Nat × Nat) → Nat → Nat
  | ph :: pl :: rest, mv =>
    if pl.1 ≤ mv then
      pl.2 + ((mv - pl.1) * (ph.2 - pl.2)) / (ph.1 - pl.1)
    else battery_interp (pl :: rest) mv
  | _, _ => 0

/-- Embeds `battery_mv_to_percent` from `src/firmware/src/main.c`:
clamp to 100 at/above the first table entry, to 0 at/below the last,
otherwise interpolate within the bracketing pair. -/
def battery_mv_to_percent (mv : Nat) : Nat :=
  if (lipo_discharge_curve.getD 0 (0, 0)).1 ≤ mv then 100
  else if mv ≤ (lipo_discharge_curve.getD 20 (0, 0)).1 then 0
  else battery_interp lipo_discharge_curve mv

/-- The first table entry holds 4200 mV. -/
lemma curve_head_mv : (lipo_discharge_curve.getD 0 (0, 0)).1 = 4200 := rfl

/-- The last table entry holds 3000 mV. -/
lemma curve_last_mv : (lipo_discharge_curve.getD 20 (0, 0)).1 = 3000 := rfl

set_option maxRecDepth 20000 in
/-- C4: `battery_mv_to_percent` clamps to 100 at/above 4200 mV and to 0
at/below 3000 mV; `mv_to_percent 3800 = 50` (an exact calibration point)
and `mv_to_percent 5000 = 100`; and for every input strictly between the
bounds it linearly interpolates inside the bracketing pair of calibration
points: for every bracket `i` and every offset `d` below the bracket
width, the value at `v_low + d` is `p_low + d * (p_high - p_low) / (v_high - v_low)`. -/
theorem battery_mv_to_percent_spec :
    (∀ mv, 4200 ≤ mv → battery_mv_to_percent mv = 100) ∧
    (∀ mv, mv ≤ 3000 → battery_mv_to_percent mv = 0) ∧
    battery_mv_to_percent 3800 = 50 ∧
    battery_mv_to_percent 5000 = 100 ∧
    battery_mv_to_percent 4200 = 100 ∧
    battery_mv_to_percent 3000 = 0 ∧
    (∀ i, i < 20 → ∀ d,
      d < (lipo_discharge_curve.getD i (0, 0)).1
            - (lipo_discharge_curve.getD (i + 1) (0, 0)).1 →
      battery_mv_to_percent ((lipo_discharge_curve.getD (i + 1) (0, 0)).1 + d) =
        (lipo_discharge_curve.getD (i + 1) (0, 0)).2 +
          d * ((lipo_discharge_curve.getD i (0, 0)).2
                - (lipo_discharge_curve.getD (i + 1) (0, 0)).2)
            / ((lipo_discharge_curve.getD i (0, 0)).1
                - (lipo_discharge_curve.getD (i + 1) (0, 0)).1)) := by
  refine ⟨?_, ?_, by decide, by decide, by decide, by decide, by decide⟩
  · intro mv h
    unfold battery_mv_to_percent
    rw [if_pos (curve_head_mv ▸ h)]
  · intro mv h
    unfold battery_mv_to_percent
    rw [curve_head_mv, curve_last_mv, if_neg (by omega), if_pos h]

/-- Witness for C4: the clamp branch of the theorem applied at 4300 mV. -/
theorem battery_mv_to_percent_spec_witness :
    battery_mv_to_percent 4300 = 100 :=
  battery_mv_to_percent_spec.1 4300 (by decide)

/-- C5 counterexample: in table order the percent column is *decreasing*
(the second entry, 95, is strictly below the first, 100), so the table is
not "non-decreasing in percent when read in table order" as the claim
states. -/
theorem battery_curve_percent_drops :
    (lipo_discharge_curve.getD 1 (0, 0)).2 <
      (lipo_discharge_curve.getD 0 (0, 0)).2 := by decide

/-- C5 (amended): the calibration table is a fixed sequence of 21 points
from 4200mV/100% to 3000mV/0% that, read in table order, is strictly
decreasing in millivolts and non-*increasing* in percent (equivalently:
percent is non-decreasing as a function of millivolts). -/
theorem battery_curve_invariant :
    lipo_discharge_curve.length = 21 ∧
    lipo_discharge_curve.getD 0 (0, 0) = (4200, 100) ∧
    lipo_discharge_curve.getD 20 (0, 0) = (3000, 0) ∧
    (∀ i, i < 20 →
      (lipo_discharge_curve.getD (i + 1) (0, 0)).1 <
          (lipo_discharge_curve.getD i (0, 0)).1 ∧
        (lipo_discharge_curve.getD (i + 1) (0, 0)).2 ≤
          (lipo_discharge_curve.getD i (0, 0)).2) := by
  decide

/-- Witness for C5 (amended): the monotonicity conjunct applied at the
first adjacent pair of the table. -/
theorem battery_curve_invariant_witness :
    (lipo_discharge_curve.getD 1 (0, 0)).1 <
        (lipo_discharge_curve.getD 0 (0, 0)).1 ∧
      (lipo_discharge_curve.getD 1 (0, 0)).2 ≤
        (lipo_discharge_curve.getD 0 (0, 0)).2 :=
  battery_curve_invariant.2.2.2 0 (by decide)

/- ==========================================================================
   PWM light control (`cie1931_lut`, `light_set_brightness`, TB6612 driver)
   ========================================================================== -/

/-- The CIE 1931 lightness-correction lookup table from
`src/firmware/src/main.c`: maps a linear 0-255 level to a perceptually
corrected PWM value. -/
def cie1931_lut : List Nat :=
  [  0,   0,   0,   0,   0,   1,   1,   1,   1,   1,   1,   1,   1,   1,   2,   2,
     2,   2,   2,   2,   2,   2,   2,   3,   3,   3,   3,   3,   3,   3,   3,   4,
     4,   4,   4,   4,   4,   5,   5,   5,   5,   5,   6,   6,   6,   6,   6,   7,
     7,   7,   7,   8,   8,   8,   8,   9,   9,   9,  10,  10,  10,  10,  11,  11,
    11,  12,  12,  12,  13,  13,  13,  14,  14,  15,  15,  15,  16,  16,  17,  17,
    17,  18,  18,  19,  19,  20,  20,  21,  21,  22,  22,  23,  23,  24,  24,  25,
    25,  26,  26,  27,  28,  28,  29,  29,  30,  31,  31,  32,  32,  33,  34,  34,
    35,  36,  37,  37,  38,  39,  39,  40,  41,  42,  43,  43,  44,  45,  46,  47,
    47,  48,  49,  50,  51,  52,  53,  54,  54,  55,  56,  57,  58,  59,  60,  61,
    62,  63,  64,  65,  66,  67,  68,  70,  71,  72,  73,  74,  75,  76,  77,  79,
    80,  81,  82,  83,  85,  86,  87,  88,  90,  91,  92,  94,  95,  96,  98,  99,
   100, 102, 103, 105, 106, 108, 109, 110, 112, 113, 115, 116, 118, 120, 121, 123,
   124, 126, 128, 129, 131, 132, 134, 136, 138, 139, 141, 143, 145, 146, 148, 150,
   152, 154, 155, 157, 159, 161, 163, 165, 167, 169, 171, 173, 175, 177, 179, 181,
   183, 185, 187, 189, 191, 193, 196, 198, 200, 202, 204, 207, 209, 211, 214, 216,
   218, 220, 223, 225, 228, 230, 232, 235, 237, 240, 242, 245, 247, 250, 252, 255]

/-- The mutable state touched by the brightness / polarity-driver code:
the recorded brightness (`current_brightness`), the TB6612 on flag
(`light_is_on`), the polarity phase and pin levels, whether the polarity
alternation timer is running, and the last PWM pulse width written to the
hardware. -/
structure LightState where
  current_brightness : Nat
  light_is_on : Bool
  polarity_phase : Bool
  standby : Bool
  ain1 : Bool
  ain2 : Bool
  timer_running : Bool
  pwm_pulse : Nat
  deriving DecidableEq, Repr

/-- Embeds `tb6612_on`: enable standby, assert phase A (AIN1 high,
AIN2 low), mark the light on and start the alternation timer. -/
def tb6612_on (s : LightState) : LightState :=
  { s with standby := true, polarity_phase := false, ain1 := true,
           ain2 := false, light_is_on := true, timer_running := true }

/-- Embeds `tb6612_off`: mark the light off, stop the alternation timer,
drive both AIN pins low (brake) and de-assert standby. -/
def tb6612_off (s : LightState) : LightState :=
  { s with light_is_on := false, timer_running := false, ain1 := false,
           ain2 := false, standby := false }

/-- The PWM pulse width computed by `light_set_brightness`:
`corrected * period / 255` on the CIE-corrected value. -/
def pwm_pulse_of (period brightness : Nat) : Nat :=
  cie1931_lut.getD brightness 0 * period / 255

/-- Embeds `light_set_brightness` from `src/firmware/src/main.c`.
`pwm_ok` models the result of the underlying `pwm_set_pulse_dt` call:
when it fails the C function logs and returns *early*, before
`current_brightness` is updated and before the TB6612 on/off control, so
the state is returned unchanged.  On success the pulse and the requested
brightness are recorded and the TB6612 is switched on/off when the
brightness crosses zero. -/
def light_set_brightness (pwm_ok : Bool) (period brightness : Nat)
    (s : LightState) : LightState :=
  if pwm_ok then
    let s1 := { s with pwm_pulse := pwm_pulse_of period brightness,
                       current_brightness := brightness }
    if 0 < brightness ∧ s1.light_is_on = false then tb6612_on s1
    else if brightness = 0 ∧ s1.light_is_on = true then tb6612_off s1
    else s1
  else s

/-- C2 counterexample: on a PWM write failure `light_set_brightness`
returns early, so the requested level 200 is *not* recorded — the
brightness state is unchanged and `current_brightness` stays 5,
contradicting the claim that the requested level is still recorded. -/
theorem set_brightness_pwm_fail_not_recorded :
    light_set_brightness false 1000 200 ⟨5, true, false, true, true, false, true, 123⟩
        = ⟨5, true, false, true, true, false, true, 123⟩ ∧
      (light_set_brightness false 1000 200
          ⟨5, true, false, true, true, false, true, 123⟩).current_brightness ≠ 200 := by
  decide

/-- C2 (amended): for every level in [0,255], if the underlying PWM write
inside `set_brightness` fails, the failure is logged and the function
returns no error, but the state *rolls back to* (stays at) its previous
value: the requested level is **not** recorded and the whole brightness
state is unchanged. -/
theorem set_brightness_pwm_fail_keeps_state (level : Nat) (h : level ≤ 255)
    (period : Nat) (s : LightState) :
    light_set_brightness false period level s = s := by
  simp [light_set_brightness]

/-- Witness for C2 (amended): a PWM failure at level 200 leaves a concrete
state untouched. -/
theorem set_brightness_pwm_fail_keeps_state_witness :
    light_set_brightness false 1000 200 ⟨7, true, false, true, true, false, true, 9⟩
      = ⟨7, true, false, true, true, false, true, 9⟩ :=
  set_brightness_pwm_fail_keeps_state 200 (by decide) 1000
    ⟨7, true, false, true, true, false, true, 9⟩

/-- C9: for every level in [0,255], `set_brightness(level)` (with the PWM
write succeeding) is idempotent: the second call with the same value
computes the same PWM pulse width (both calls record
`pwm_pulse_of period level`) and leaves the whole brightness state —
recorded brightness, on/off and polarity-driver state — unchanged. -/
theorem set_brightness_idempotent (level : Nat) (h : level ≤ 255)
    (period : Nat) (s : LightState) :
    light_set_brightness true period level (light_set_brightness true period level s)
        = light_set_brightness true period level s ∧
      (light_set_brightness true period level s).pwm_pulse = pwm_pulse_of period level := by
  cases s
  simp only [light_set_brightness]
  split_ifs <;> simp_all [tb6612_on, tb6612_off]

/-- Witness for C9: idempotence evaluated at level 100 on a concrete
state. -/
theorem set_brightness_idempotent_witness :
    light_set_brightness true 1000 100 (light_set_brightness true 1000 100
        ⟨0, false, false, false, false, false, false, 0⟩)
        = light_set_brightness true 1000 100
            ⟨0, false, false, false, false, false, false, 0⟩ ∧
      (light_set_brightness true 1000 100
          ⟨0, false, false, false, false, false, false, 0⟩).pwm_pulse
        = pwm_pulse_of 1000 100 :=
  set_brightness_idempotent 100 (by decide) 1000
    ⟨0, false, false, false, false, false, false, 0⟩

/- ==========================================================================
   Transition engine (`light_fade_to`, `transition_work_handler`)
   ========================================================================== -/

/-- The fade bookkeeping of `src/firmware/src/main.c`:
`transition_start`/`transition_target` are `uint8_t`,
`transition_elapsed`/`transition_duration` are `uint16_t`. -/
structure TransState where
  start : Nat
  target : Nat
  elapsed : Nat
  duration : Nat
  deriving DecidableEq, Repr

/-- The linear-interpolation expression of `transition_work_handler`:
`(uint8_t)(start + (int32_t)(target - start) * elapsed / duration)`,
with C `int32_t` division truncating toward zero (`Int.tdiv`) and the
final conversion to `uint8_t` taken modulo 256. -/
def transition_interp (s t d e : Nat) : Nat :=
  (((s : Int) + Int.tdiv (((t : Int) - (s : Int)) * (e : Int)) (d : Int)) % 256).toNat

/-- One run of `transition_work_handler`: add the 20 ms step to the
16-bit `elapsed` counter; if `elapsed >= duration` write the target
brightness and do not reschedule, otherwise write the interpolated
brightness and reschedule.  Returns (new fade state, brightness written,
rescheduled?). -/
def transition_tick (ts : TransState) : TransState × Nat × Bool :=
  let e := (ts.elapsed + 20) % 65536
  ({ ts with elapsed := e },
   if ts.duration ≤ e then (ts.target, false)
   else (transition_interp ts.start ts.target ts.duration e, true))

/-- The fade state after `k` ticks of a transition freshly started by
`light_fade_to target duration` from brightness `s` (so
`start = s`, `elapsed = 0`). -/
def transition_after (s t d : Nat) : Nat → TransState
  | 0 => ⟨s, t, 0, d⟩
  | k + 1 => (transition_tick (transition_after s t d k)).1

lemma transition_after_const (s t d k : Nat) :
    (transition_after s t d k).start = s ∧
      (transition_after s t d k).target = t ∧
      (transition_after s t d k).duration = d := by
  induction k with
  | zero => exact ⟨rfl, rfl, rfl⟩
  | succ k ih => simpa [transition_after, transition_tick] using ih

lemma transition_after_elapsed (s t d : Nat) :
    ∀ k, 20 * k < 65536 → (transition_after s t d k).elapsed = 20 * k := by
  intro k hk
  induction k with
  | zero => rfl
  | succ k ih =>
    have hk20 : 20 * k < 65536 := by omega
    simp only [transition_after, transition_tick, ih hk20]
    omega

lemma transition_after_eq (s t d k : Nat) (hk : 20 * k < 65536) :
    transition_after s t d k = ⟨s, t, 20 * k, d⟩ := by
  obtain ⟨h1, h2, h3⟩ := transition_after_const s t d k
  have h4 := transition_after_elapsed s t d k hk
  rcases he : transition_after s t d k with ⟨a, b, c, dd⟩
  rw [he] at h1 h2 h3 h4
  simp_all

lemma int_tdiv_natCast (a b : Nat) :
    Int.tdiv (a : Int) (b : Int) = ((a / b : Nat) : Int) := rfl

lemma int_tdiv_neg_natCast (a b : Nat) :
    Int.tdiv (-(a : Int)) (b : Int) = -((a / b : Nat) : Int) := by
  rw [Int.neg_tdiv, int_tdiv_natCast]

/-- The interpolated brightness, in `Nat` terms: going up it is
`s + (t - s) * e / d`, going down it is `s - (s - t) * e / d`; in both
cases it lies between `s` and `t` inclusive whenever `e < d`. -/
lemma transition_interp_spec (s t d e : Nat) (hs : s ≤ 255) (ht : t ≤ 255)
    (hd : 0 < d) (he : e < d) :
    transition_interp s t d e
        = (if s ≤ t then s + (t - s) * e / d else s - (s - t) * e / d) ∧
      min s t ≤ transition_interp s t d e ∧
      transition_interp s t d e ≤ max s t := by
  have hdivle : ∀ a : Nat, a * e / d ≤ a := by
    intro a
    calc a * e / d ≤ a * d / d := Nat.div_le_div_right (Nat.mul_le_mul_left a (le_of_lt he))
    _ = a := Nat.mul_div_cancel a hd
  rcases le_or_lt s t with hst | hst
  · have hcast : ((t : Int) - (s : Int)) * (e : Int) = (((t - s) * e : Nat) : Int) := by
      push_cast [hst]; ring
    have hq := hdivle (t - s)
    have hval : transition_interp s t d e = s + (t - s) * e / d := by
      unfold transition_interp
      rw [hcast, int_tdiv_natCast, ← Nat.cast_add,
          Int.emod_eq_of_lt (by positivity)
            (by exact_mod_cast (by omega : s + (t - s) * e / d < 256)),
          Int.toNat_natCast]
    rw [hval, if_pos hst, min_eq_left hst, max_eq_right hst]
    exact ⟨rfl, Nat.le_add_right s _, by omega⟩
  · have hcast : ((t : Int) - (s : Int)) * (e : Int) = -((((s - t) * e : Nat) : Int)) := by
      push_cast [le_of_lt hst]; ring
    have hq := hdivle (s - t)
    have hqs : (s - t) * e / d ≤ s := le_trans hq (Nat.sub_le s t)
    have hlt2 : s - (s - t) * e / d < 256 := lt_of_le_of_lt (Nat.sub_le s _) (by omega)
    have hlt2c : ((s - (s - t) * e / d : Nat) : Int) < 256 := by exact_mod_cast hlt2
    have hval : transition_interp s t d e = s - (s - t) * e / d := by
      unfold transition_interp
      rw [hcast, int_tdiv_neg_natCast, ← sub_eq_add_neg, ← Nat.cast_sub hqs,
          Int.emod_eq_of_lt (by positivity) hlt2c, Int.toNat_natCast]
    rw [hval, if_neg (Nat.not_le.mpr hst), min_eq_right (le_of_lt hst),
        max_eq_left (le_of_lt hst)]
    exact ⟨rfl, by omega, Nat.sub_le s _⟩

/-- C1 counterexample: start a fade from 0 to 200 with
`duration_ms = 65535`.  The 16-bit `elapsed` counter, stepped by 20,
reaches 65520 after 3276 ticks and then wraps: after tick 3277 it holds
4, not 20·3277 = 65540, so elapsed does not advance "by exactly 20 ms per
tick"; that tick — by which 65540 ms ≥ duration have really passed — still
writes an interpolated brightness (0, not the target 200) and reschedules
itself instead of arriving at the target.  (At this particular duration
every elapsed value is a multiple of 4 mod 2^16 and so never reaches
65535, though for other wrapping durations the counter can still cross
the threshold on a later cycle and complete late.) -/
theorem transition_elapsed_wraps :
    (transition_after 0 200 65535 3277).elapsed = 4 ∧
      (transition_tick (transition_after 0 200 65535 3276)).2.2 = true ∧
      (transition_tick (transition_after 0 200 65535 3276)).2.1 = 0 := by
  have hfix : transition_after 0 200 65535 3276 = ⟨0, 200, 65520, 65535⟩ :=
    transition_after_eq 0 200 65535 3276 (by omega)
  have htick : transition_after 0 200 65535 3277
      = (transition_tick (transition_after 0 200 65535 3276)).1 := rfl
  rw [htick, hfix]
  refine ⟨by decide, by decide, by decide⟩

/-- C1 (amended): for every target, every start brightness and every
`0 < duration_ms ≤ 65520` with target ≠ start, the transition started by
`light_fade_to` advances `elapsed` by exactly 20 ms per tick (so after
`k` ticks `elapsed = 20k`, up to and including the completing tick); on
the first tick where `elapsed ≥ duration` (the tick `k+1` with
`20k < duration ≤ 20(k+1)`) it sets brightness to exactly the target and
schedules no further tick; and on every earlier tick it sets brightness
to `start + (target - start) * elapsed / duration` computed in signed
32-bit arithmetic, a value that lies between start and target inclusive
(no overshoot).  (For `duration_ms > 65520` the 16-bit elapsed counter
wraps before reaching the duration, so elapsed does not advance by
exactly 20 ms per tick and the tick-by-tick schedule above breaks down —
see the duration-65535 counterexample.) -/
theorem transition_engine_spec (s t d : Nat) (hs : s ≤ 255) (ht : t ≤ 255)
    (hd : 0 < d) (hd65 : d ≤ 65520) (hne : t ≠ s) :
    (∀ k, 20 * (k + 1) ≤ d + 19 →
      (transition_after s t d (k + 1)).elapsed = 20 * (k + 1)) ∧
      (∀ k, 20 * (k + 1) < d →
        (transition_tick (transition_after s t d k)).2.1
            = transition_interp s t d (20 * (k + 1)) ∧
          min s t ≤ (transition_tick (transition_after s t d k)).2.1 ∧
          (transition_tick (transition_after s t d k)).2.1 ≤ max s t ∧
          (transition_tick (transition_after s t d k)).2.2 = true) ∧
      (∀ k, 20 * k < d → d ≤ 20 * (k + 1) →
        (transition_tick (transition_after s t d k)).2.1 = t ∧
          (transition_tick (transition_after s t d k)).2.2 = false) := by
  refine ⟨?_, ?_, ?_⟩
  · intro k hk
    exact transition_after_elapsed s t d (k + 1) (by omega)
  · intro k hk
    have e1 : transition_after s t d k = ⟨s, t, 20 * k, d⟩ :=
      transition_after_eq s t d k (by omega)
    have hm : (20 * k + 20) % 65536 = 20 * (k + 1) := by omega
    have e2 : transition_tick (transition_after s t d k)
        = (⟨s, t, 20 * (k + 1), d⟩, transition_interp s t d (20 * (k + 1)), true) := by
      rw [e1]
      simp only [transition_tick, hm]
      rw [if_neg (by omega : ¬ d ≤ 20 * (k + 1))]
    obtain ⟨hival, hilo, hihi⟩ :=
      transition_interp_spec s t d (20 * (k + 1)) hs ht hd (by omega)
    rw [e2]
    exact ⟨rfl, hilo, hihi, rfl⟩
  · intro k hk1 hk2
    have e1 : transition_after s t d k = ⟨s, t, 20 * k, d⟩ :=
      transition_after_eq s t d k (by omega)
    have hm : (20 * k + 20) % 65536 = 20 * (k + 1) := by omega
    have e2 : transition_tick (transition_after s t d k)
        = (⟨s, t, 20 * (k + 1), d⟩, t, false) := by
      rw [e1]
      simp only [transition_tick, hm]
      rw [if_pos (by omega : d ≤ 20 * (k + 1))]
    rw [e2]
    exact ⟨rfl, rfl⟩

/-- Witness for C1 (amended): a fade from 0 to 200 over 100 ms — tick 3
(elapsed 60) writes the interpolated value 120 and reschedules, tick 5
(elapsed 100 ≥ 100) writes exactly 200 and stops. -/
theorem transition_engine_spec_witness :
    (transition_tick (transition_after 0 200 100 2)).2.1
        = transition_interp 0 200 100 60 ∧
      (transition_tick (transition_after 0 200 100 4)).2.1 = 200 ∧
      (transition_tick (transition_after 0 200 100 4)).2.2 = false := by
  refine ⟨((transition_engine_spec 0 200 100 (by decide) (by decide) (by decide)
    (by decide) (by decide)).2.1 2 (by decide)).1, ?_, ?_⟩
  · exact ((transition_engine_spec 0 200 100 (by decide) (by decide) (by decide)
      (by decide) (by decide)).2.2 4 (by decide) (by decide)).1
  · exact ((transition_engine_spec 0 200 100 (by decide) (by decide) (by decide)
      (by decide) (by decide)).2.2 4 (by decide) (by decide)).2

/- ==========================================================================
   Device state: attributes, identify effects, fades, startup, toggle
   ========================================================================== -/

/-- ZCL identify effect identifiers (values from the Zigbee cluster
library headers used by `main.c`). -/
def EFFECT_BLINK : Nat := 0x00

def EFFECT_BREATHE : Nat := 0x01

def EFFECT_OKAY : Nat := 0x02

def EFFECT_CHANNEL_CHANGE : Nat := 0x0b

def EFFECT_FINISH : Nat := 0xfe

def EFFECT_STOP : Nat := 0xff

/-- The application-level mutable state of `main.c`: the brightness /
polarity hardware state, the On/Off and Level Control attributes
(`dev_ctx`), `app_state.last_brightness`, the identify-effect globals,
and the fade globals.  `effect_next` / `trans_next` model the Zephyr
delayed-work items `effect_work` / `transition_work`: `some d` means the
work is scheduled to run after `d` ms, `none` means it is not pending. -/
structure DevState where
  light : LightState
  attr_on_off : Bool
  attr_level : Nat
  su_on_off : Nat
  su_level : Nat
  transition_time : Nat
  last_brightness : Nat
  effect_type : Nat
  effect_step : Nat
  effect_next : Option Nat
  trans : TransState
  trans_next : Option Nat
  deriving DecidableEq, Repr

/-- The shared "restore previous state" tail of the identify-effect code:
set brightness from the On/Off and Level attributes (`current_level` if
on, 0 if off). -/
def effect_restore (period : Nat) (s : DevState) : DevState :=
  if s.attr_on_off then
    { s with light := light_set_brightness true period s.attr_level s.light }
  else
    { s with light := light_set_brightness true period 0 s.light }

/-- Embeds `effect_work_handler` from `src/firmware/src/main.c`: one step
of the active identify-effect script.  Each scheduled step updates the
brightness and reschedules itself (`effect_next := some delay`); each
completion branch restores the attribute-derived brightness, sets
`effect_type` to Stop and leaves the work unscheduled. -/
def effect_work_handler (period : Nat) (s : DevState) : DevState :=
  if s.effect_type = EFFECT_BLINK then
    if s.effect_step = 0 then
      { s with light := light_set_brightness true period 255 s.light,
               effect_step := 1, effect_next := some 500 }
    else
      { effect_restore period s with effect_type := EFFECT_STOP, effect_next := none }
  else if s.effect_type = EFFECT_BREATHE then
    if s.effect_step < 30 then
      { s with light := light_set_brightness true period
                 (if s.effect_step % 2 = 0 then 255 else 0) s.light,
               effect_step := s.effect_step + 1, effect_next := some 500 }
    else
      { effect_restore period s with effect_type := EFFECT_STOP, effect_next := none }
  else if s.effect_type = EFFECT_OKAY then
    if s.effect_step < 4 then
      { s with light := light_set_brightness true period
                 (if s.effect_step % 2 = 0 then 255 else 0) s.light,
               effect_step := s.effect_step + 1, effect_next := some 200 }
    else
      { effect_restore period s with effect_type := EFFECT_STOP, effect_next := none }
  else if s.effect_type = EFFECT_CHANNEL_CHANGE then
    if s.effect_step = 0 then
      { s with light := light_set_brightness true period 255 s.light,
               effect_step := 1, effect_next := some 500 }
    else if s.effect_step = 1 then
      { s with light := light_set_brightness true period 25 s.light,
               effect_step := 2, effect_next := some 7500 }
    else
      { effect_restore period s with effect_type := EFFECT_STOP, effect_next := none }
  else
    { effect_restore period s with effect_type := EFFECT_STOP, effect_next := none }

/-- Embeds `start_identify_effect`: cancel any running effect work, set
`effect_type` to the requested id and reset `effect_step` to 0; for
Stop/FinishEffect restore the attribute-derived brightness immediately,
otherwise schedule the first effect step with no wait.  Note that the
*transition* work (`trans`/`trans_next`) is not touched. -/
def start_identify_effect (period effect_id : Nat) (s : DevState) : DevState :=
  let s1 := { s with effect_next := none, effect_type := effect_id, effect_step := 0 }
  if effect_id = EFFECT_STOP ∨ effect_id = EFFECT_FINISH then
    effect_restore period s1
  else
    { s1 with effect_next := some 0 }

/-- Embeds `transition_work_handler` acting on the device state: run one
fade tick (`transition_tick`), write the resulting brightness, and
reschedule the work after 20 ms unless the fade completed. -/
def transition_work_run (period : Nat) (s : DevState) : DevState :=
  let r := transition_tick s.trans
  { s with trans := r.1,
           light := light_set_brightness true period r.2.1 s.light,
           trans_next := if r.2.2 then some 20 else none }

/-- Embeds `light_fade_to`: cancel any ongoing transition; for zero
duration or when already at the target set the brightness immediately
with no scheduled work; otherwise record the fade (starting from the
actual current PWM brightness) and schedule the first tick with no
wait. -/
def light_fade_to (period target duration : Nat) (s : DevState) : DevState :=
  let s1 := { s with trans_next := none }
  if duration = 0 ∨ s1.light.current_brightness = target then
    { s1 with light := light_set_brightness true period target s1.light }
  else
    { s1 with trans := ⟨s1.light.current_brightness, target, 0, duration⟩,
              trans_next := some 0 }

@[simp] lemma light_set_brightness_current (period b : Nat) (s : LightState) :
    (light_set_brightness true period b s).current_brightness = b := by
  simp only [light_set_brightness, if_true]
  split_ifs <;> rfl

@[simp] lemma light_set_brightness_is_on (period b : Nat) (s : LightState) :
    (light_set_brightness true period b s).light_is_on = decide (0 < b) := by
  rcases Nat.eq_zero_or_pos b with hb | hb <;>
    simp only [light_set_brightness, if_true] <;>
    split_ifs <;> simp_all [tb6612_on, tb6612_off]

lemma start_identify_effect_fields (period id : Nat) (s : DevState) :
    (start_identify_effect period id s).effect_step = 0 ∧
      (start_identify_effect period id s).effect_type = id ∧
      (start_identify_effect period id s).effect_next
        = (if id = EFFECT_STOP ∨ id = EFFECT_FINISH then none else some 0) := by
  simp only [start_identify_effect, effect_restore]
  split_ifs <;> simp_all

/-- C7: starting any identify effect cancels the pending effect work and
resets the step counter to 0, and every script's completion — Blink after
its 255-then-restore steps (2 handler runs), Breathe after 30 alternating
255/0 steps (31 runs), Okay after 4 alternating steps (5 runs),
ChannelChange after 255 then 25 (3 runs), and Stop/FinishEffect
immediately — leaves the effect machine idle (type Stop, or the
Stop/FinishEffect id it was started with, and no scheduled work) with
brightness re-asserted from the on/off and level attributes
(`current_level` if on, 0 if off), never a stale intermediate value. -/
theorem identify_effect_scripts (period : Nat) (s : DevState) :
    (∀ id, (start_identify_effect period id s).effect_step = 0 ∧
      (start_identify_effect period id s).effect_type = id ∧
      (start_identify_effect period id s).effect_next
        = (if id = EFFECT_STOP ∨ id = EFFECT_FINISH then none else some 0)) ∧
      ((effect_work_handler period)^[2]
          (start_identify_effect period EFFECT_BLINK s)).effect_type = EFFECT_STOP ∧
      ((effect_work_handler period)^[2]
          (start_identify_effect period EFFECT_BLINK s)).effect_next = none ∧
      ((effect_work_handler period)^[2]
          (start_identify_effect period EFFECT_BLINK s)).light.current_brightness
        = (if s.attr_on_off then s.attr_level else 0) ∧
      ((effect_work_handler period)^[31]
          (start_identify_effect period EFFECT_BREATHE s)).effect_type = EFFECT_STOP ∧
      ((effect_work_handler period)^[31]
          (start_identify_effect period EFFECT_BREATHE s)).effect_next = none ∧
      ((effect_work_handler period)^[31]
          (start_identify_effect period EFFECT_BREATHE s)).light.current_brightness
        = (if s.attr_on_off then s.attr_level else 0) ∧
      ((effect_work_handler period)^[5]
          (start_identify_effect period EFFECT_OKAY s)).effect_type = EFFECT_STOP ∧
      ((effect_work_handler period)^[5]
          (start_identify_effect period EFFECT_OKAY s)).effect_next = none ∧
      ((effect_work_handler period)^[5]
          (start_identify_effect period EFFECT_OKAY s)).light.current_brightness
        = (if s.attr_on_off then s.attr_level else 0) ∧
      ((effect_work_handler period)^[3]
          (start_identify_effect period EFFECT_CHANNEL_CHANGE s)).effect_type
        = EFFECT_STOP ∧
      ((effect_work_handler period)^[3]
          (start_identify_effect period EFFECT_CHANNEL_CHANGE s)).effect_next = none ∧
      ((effect_work_handler period)^[3]
          (start_identify_effect period EFFECT_CHANNEL_CHANGE s)).light.current_brightness
        = (if s.attr_on_off then s.attr_level else 0) ∧
      (start_identify_effect period EFFECT_STOP s).effect_next = none ∧
      (start_identify_effect period EFFECT_STOP s).light.current_brightness
        = (if s.attr_on_off then s.attr_level else 0) ∧
      (start_identify_effect period EFFECT_FINISH s).effect_next = none ∧
      (start_identify_effect period EFFECT_FINISH s).light.current_brightness
        = (if s.attr_on_off then s.attr_level else 0) := by
  cases hoo : s.attr_on_off <;>
    refine ⟨fun id => start_identify_effect_fields period id s,
      ?_, ?_, ?_, ?_, ?_, ?_, ?_, ?_, ?_, ?_, ?_, ?_, ?_, ?_, ?_, ?_⟩ <;>
    simp [start_identify_effect, effect_work_handler, effect_restore, hoo,
      EFFECT_BLINK, EFFECT_BREATHE, EFFECT_OKAY, EFFECT_CHANNEL_CHANGE,
      EFFECT_FINISH, EFFECT_STOP, Function.iterate_succ_apply]

/-- The concrete mid-fade scenario for C3: light off at brightness 0,
attributes on with level 200, a fade 0 → 200 over 1000 ms just started
(`trans_next = some 0`), no effect running. -/
def fade_blink_state : DevState :=
  { light := ⟨0, false, false, false, false, false, false, 0⟩,
    attr_on_off := true, attr_level := 200, su_on_off := 255, su_level := 255,
    transition_time := 10, last_brightness := 200, effect_type := EFFECT_STOP,
    effect_step := 0, effect_next := none, trans := ⟨0, 200, 0, 1000⟩,
    trans_next := some 0 }

/-- The scenario state after `start_identify_effect(Blink)`. -/
def fade_blink_s1 : DevState := start_identify_effect 1000 EFFECT_BLINK fade_blink_state

/-- The scenario state after the first Blink step (brightness 255, next step in 500 ms). -/
def fade_blink_s2 : DevState := effect_work_handler 1000 fade_blink_s1

/-- The scenario state after the next fade tick, which fires about 20 ms later while the
Blink effect is still active. -/
def fade_blink_s3 : DevState := transition_work_run 1000 fade_blink_s2

/-- C3 counterexample: `start_identify_effect` does not cancel the
transition work, so in the concrete mid-fade scenario the fade tick is
still scheduled after Blink starts, and it runs while the effect is
active (between Blink steps), overwriting the effect's brightness 255
with the interpolated fade value 4 — the Transition Engine *does* write
brightness while the effect is active. -/
theorem effect_does_not_cancel_fade :
    fade_blink_s1.trans_next = some 0 ∧
      fade_blink_s2.effect_type = EFFECT_BLINK ∧
      fade_blink_s2.effect_next = some 500 ∧
      fade_blink_s2.light.current_brightness = 255 ∧
      fade_blink_s3.effect_type = EFFECT_BLINK ∧
      fade_blink_s3.effect_next = some 500 ∧
      fade_blink_s3.light.current_brightness = 4 := by
  decide

/-- C3 (amended): starting an identify effect does *not* cancel a pending
fade — the transition work and its schedule are left untouched, so the
Transition Engine can still write brightness while the effect is active;
what the code does guarantee is that the effect's restore step itself
sets brightness to the current attribute-derived steady-state value
(`current_level` if on_off is true, 0 otherwise), not to any value the
interrupted fade was passing through. -/
theorem effect_restore_uses_attributes (period id : Nat) (s : DevState) :
    (start_identify_effect period id s).trans_next = s.trans_next ∧
      (start_identify_effect period id s).trans = s.trans ∧
      (s.effect_type = EFFECT_BLINK → s.effect_step ≠ 0 →
        (effect_work_handler period s).light.current_brightness
            = (if s.attr_on_off then s.attr_level else 0) ∧
          (effect_work_handler period s).effect_type = EFFECT_STOP ∧
          (effect_work_handler period s).effect_next = none) := by
  refine ⟨?_, ?_, ?_⟩
  · simp only [start_identify_effect]
    split_ifs <;> simp [effect_restore] <;> split_ifs <;> rfl
  · simp only [start_identify_effect]
    split_ifs <;> simp [effect_restore] <;> split_ifs <;> rfl
  · intro h1 h2
    cases hoo : s.attr_on_off <;>
      simp [effect_work_handler, effect_restore, h1, h2, hoo]

/-- The scenario state with a Blink effect at its restore step. -/
def blink_restore_state : DevState :=
  { fade_blink_state with effect_type := EFFECT_BLINK, effect_step := 1 }

/-- Witness for C3 (amended): the restore step of a Blink at step 1, on
the concrete mid-fade scenario state, yields the attribute-derived
brightness (200, since on_off is true and level is 200). -/
theorem effect_restore_uses_attributes_witness :
    (effect_work_handler 1000 blink_restore_state).light.current_brightness
        = (if blink_restore_state.attr_on_off then blink_restore_state.attr_level else 0) ∧
      (effect_work_handler 1000 blink_restore_state).effect_type = EFFECT_STOP ∧
      (effect_work_handler 1000 blink_restore_state).effect_next = none :=
  (effect_restore_uses_attributes 1000 EFFECT_BLINK blink_restore_state).2.2
    rfl (by decide)

/- ==========================================================================
   Startup resolver (`apply_startup_behavior`)
   ========================================================================== -/

/-- The level `switch` of `apply_startup_behavior`: policy 0x00
(Minimum) resolves to the cluster's minimum level 0, 0xFF (Previous)
keeps the persisted `current_level`, and any other policy byte is the
specific level itself. -/
def startup_level_resolve (policy persisted : Nat) : Nat :=
  if policy = 0x00 then 0
  else if policy = 0xff then persisted
  else policy

/-- The on/off `switch` of `apply_startup_behavior`: 0x00 → off,
0x01 → on, 0x02 → toggle (negate the persisted value), 0xFF and any
other byte → keep the persisted value. -/
def startup_on_off_resolve (policy : Nat) (persisted : Bool) : Bool :=
  if policy = 0x00 then false
  else if policy = 0x01 then true
  else if policy = 0x02 then !persisted
  else persisted

/-- Embeds `apply_startup_behavior` from `src/firmware/src/main.c`:
resolve the startup level and on/off state from the two policy
attributes (independently of each other), store both as the new
attribute state, and immediately set brightness to the resolved level if
on (or 0 if off) — no fade is started. -/
def apply_startup_behavior (period : Nat) (s : DevState) : DevState :=
  let level := startup_level_resolve s.su_level s.attr_level
  let on_state := startup_on_off_resolve s.su_on_off s.attr_on_off
  let s1 := { s with attr_level := level, attr_on_off := on_state }
  if on_state then
    { s1 with light := light_set_brightness true period level s1.light,
              last_brightness := level }
  else
    { s1 with light := light_set_brightness true period 0 s1.light }

/-- C8: the startup resolver computes the startup level as
{Minimum(0x00)→0, Previous(0xFF)→persisted `current_level`,
Specific(v)→v} and the startup on/off as {Off(0x00)→false, On(0x01)→true,
Toggle(0x02)→negated persisted, Previous(0xFF)→persisted}, each from its
own policy byte and persisted value only (independent of the other);
stores both as the new attribute state; and immediately sets brightness
to the resolved level if on (0 if off) with no fade (the transition state
and its schedule are untouched). -/
theorem apply_startup_behavior_spec (period : Nat) (s : DevState) :
    (s.su_level = 0x00 → (apply_startup_behavior period s).attr_level = 0) ∧
      (s.su_level = 0xff →
        (apply_startup_behavior period s).attr_level = s.attr_level) ∧
      (s.su_level ≠ 0x00 → s.su_level ≠ 0xff →
        (apply_startup_behavior period s).attr_level = s.su_level) ∧
      (s.su_on_off = 0x00 → (apply_startup_behavior period s).attr_on_off = false) ∧
      (s.su_on_off = 0x01 → (apply_startup_behavior period s).attr_on_off = true) ∧
      (s.su_on_off = 0x02 →
        (apply_startup_behavior period s).attr_on_off = !s.attr_on_off) ∧
      (s.su_on_off = 0xff →
        (apply_startup_behavior period s).attr_on_off = s.attr_on_off) ∧
      (apply_startup_behavior period s).attr_level
        = startup_level_resolve s.su_level s.attr_level ∧
      (apply_startup_behavior period s).attr_on_off
        = startup_on_off_resolve s.su_on_off s.attr_on_off ∧
      (apply_startup_behavior period s).light.current_brightness
        = (if startup_on_off_resolve s.su_on_off s.attr_on_off
           then startup_level_resolve s.su_level s.attr_level else 0) ∧
      (apply_startup_behavior period s).trans = s.trans ∧
      (apply_startup_behavior period s).trans_next = s.trans_next := by
  have hlevel : (apply_startup_behavior period s).attr_level
      = startup_level_resolve s.su_level s.attr_level := by
    simp only [apply_startup_behavior]
    split_ifs <;> rfl
  have hon : (apply_startup_behavior period s).attr_on_off
      = startup_on_off_resolve s.su_on_off s.attr_on_off := by
    simp only [apply_startup_behavior]
    split_ifs <;> rfl
  refine ⟨?_, ?_, ?_, ?_, ?_, ?_, ?_, hlevel, hon, ?_, ?_, ?_⟩
  · intro h; rw [hlevel]; simp [startup_level_resolve, h]
  · intro h; rw [hlevel]; simp [startup_level_resolve, h]
  · intro h1 h2; rw [hlevel]; simp [startup_level_resolve, h1, h2]
  · intro h; rw [hon]; simp [startup_on_off_resolve, h]
  · intro h; rw [hon]; simp [startup_on_off_resolve, h]
  · intro h; rw [hon]; simp [startup_on_off_resolve, h]
  · intro h; rw [hon]; simp [startup_on_off_resolve, h]
  · simp only [apply_startup_behavior]
    split_ifs with h <;> simp [h]
  · simp only [apply_startup_behavior]
    split_ifs <;> rfl
  · simp only [apply_startup_behavior]
    split_ifs <;> rfl

/-- A persisted state (on, level 7) with Previous/Previous startup
policies. -/
def startup_prev_state : DevState :=
  { fade_blink_state with
      attr_level := 7,
      su_on_off := 0xff,
      su_level := 0xff }

/-- Witness for C8: with policies Previous/Previous and persisted state
(on, level 7), the resolver keeps both. -/
theorem apply_startup_behavior_spec_witness :
    (apply_startup_behavior 1000 startup_prev_state).attr_level
        = startup_prev_state.attr_level ∧
      (apply_startup_behavior 1000 startup_prev_state).attr_on_off
        = startup_prev_state.attr_on_off :=
  ⟨(apply_startup_behavior_spec 1000 startup_prev_state).2.1 rfl,
   (apply_startup_behavior_spec 1000 startup_prev_state).2.2.2.2.2.2.1 rfl⟩

/- ==========================================================================
   Toggle (`light_toggle`)
   ========================================================================== -/

/-- Embeds `light_toggle` from `src/firmware/src/main.c`.  Returns the
new device state together with the fade request it issues:
`(target_level, transition_ms)`.  When turning on, the target is
`current_level` if positive, else `last_brightness`, defaulting to 255
if that is still 0; when turning off the target is 0.  The fade duration
is `on_off_transition_time * 100` (16-bit product), defaulting to
1000 ms when zero. -/
def light_toggle (period : Nat) (s : DevState) : DevState × Nat × Nat :=
  let new_state := !s.attr_on_off
  let target :=
    if new_state then
      let t0 := if 0 < s.attr_level then s.attr_level else s.last_brightness
      if t0 = 0 then 255 else t0
    else 0
  let s1 := { s with attr_on_off := new_state }
  let s2 := if new_state ∧ target ≠ s.attr_level then { s1 with attr_level := target }
            else s1
  let tms0 := s.transition_time * 100 % 65536
  let tms := if tms0 = 0 then 1000 else tms0
  let s3 := light_fade_to period target tms s2
  let s4 := if 0 < target then { s3 with last_brightness := target } else s3
  (s4, target, tms)

/-- C10: when `light_toggle` switches the light from off to on, the fade
target level it requests is `current_level` if that is positive,
otherwise the remembered `last_brightness` if that is positive, otherwise
255 — in every case strictly positive. -/
theorem light_toggle_on_target_positive (period : Nat) (s : DevState)
    (hoff : s.attr_on_off = false) :
    (light_toggle period s).2.1
        = (if 0 < s.attr_level then s.attr_level
           else if 0 < s.last_brightness then s.last_brightness else 255) ∧
      0 < (light_toggle period s).2.1 := by
  simp only [light_toggle, hoff, Bool.not_false, if_true]
  split_ifs <;> simp_all <;> omega

/-- An off state that has never had a positive level or remembered
brightness. -/
def toggle_zero_state : DevState :=
  { fade_blink_state with
      attr_on_off := false,
      attr_level := 0,
      last_brightness := 0 }

/-- Witness for C10: toggling on from a state with `current_level = 0`
and `last_brightness = 0` targets 255. -/
theorem light_toggle_on_target_positive_witness :
    (light_toggle 1000 toggle_zero_state).2.1
        = (if 0 < toggle_zero_state.attr_level then toggle_zero_state.attr_level
           else if 0 < toggle_zero_state.last_brightness
           then toggle_zero_state.last_brightness else 255) ∧
      0 < (light_toggle 1000 toggle_zero_state).2.1 :=
  light_toggle_on_target_positive 1000 toggle_zero_state rfl

/- ==========================================================================
   Button state machine (`button_work_handler`, `long_press_work_handler`)
   ========================================================================== -/

/-- The long-press threshold `BUTTON_LONG_PRESS_MS` from `main.c`. -/
def BUTTON_LONG_PRESS_MS : Nat := 3000

/-- The button-handling state of `main.c` (`app_state.pressed`,
`app_state.press_time`, and the `long_press_work` delayed item modelled
as an armed flag plus its due time), together with counters for the
events the handlers emit: `shorts` counts short-press toggle events,
`longs` counts long-press (factory-reset) events. -/
structure ButtonSt where
  pressed : Bool
  press_time : Nat
  long_armed : Bool
  long_due : Nat
  shorts : Nat
  longs : Nat
  deriving DecidableEq, Repr

/-- The initial button state. -/
def button_init : ButtonSt := ⟨false, 0, false, 0, 0, 0⟩

/-- Embeds `button_work_handler`: on a press edge record the timestamp
and arm the long-press timer for 3000 ms; on a release edge disarm the
timer and, if the held duration was under the threshold, emit one
short-press (toggle) event. -/
def button_work (pressed_now : Bool) (now : Nat) (s : ButtonSt) : ButtonSt :=
  if pressed_now ∧ s.pressed = false then
    { s with pressed := true, press_time := now, long_armed := true,
             long_due := now + BUTTON_LONG_PRESS_MS }
  else if pressed_now = false ∧ s.pressed = true then
    let s1 := { s with pressed := false, long_armed := false }
    if now - s.press_time < BUTTON_LONG_PRESS_MS then
      { s1 with shorts := s1.shorts + 1 }
    else s1
  else s

/-- Embeds `long_press_work_handler`: when the timer expires with the
button still held, emit one long-press (factory-reset) event. -/
def long_press_work (s : ButtonSt) : ButtonSt :=
  if s.pressed then { s with longs := s.longs + 1 } else s

/-- A press at `t0` followed by a release at `t1`: the armed long-press
work fires at its due time if that is strictly before the release
(the release cancels it otherwise). -/
def button_scenario_release (t0 t1 : Nat) : ButtonSt :=
  let s1 := button_work true t0 button_init
  let s2 := if s1.long_armed ∧ s1.long_due < t1 then long_press_work s1 else s1
  button_work false t1 s2

/-- A press at `t0` still held at time `tend`: the armed long-press work
fires if its due time has been reached. -/
def button_scenario_hold (t0 tend : Nat) : ButtonSt :=
  let s1 := button_work true t0 button_init
  if s1.long_armed ∧ s1.long_due ≤ tend then long_press_work s1 else s1

lemma button_press_eq (t0 : Nat) :
    button_work true t0 button_init = ⟨true, t0, true, t0 + 3000, 0, 0⟩ := rfl

lemma button_fire_eq (t0 : Nat) :
    long_press_work ⟨true, t0, true, t0 + 3000, 0, 0⟩
      = ⟨true, t0, true, t0 + 3000, 0, 1⟩ := rfl

lemma button_release_eq (t0 t1 L : Nat) :
    button_work false t1 ⟨true, t0, true, t0 + 3000, 0, L⟩
      = if t1 - t0 < 3000
        then ⟨false, t0, false, t0 + 3000, 1, L⟩
        else ⟨false, t0, false, t0 + 3000, 0, L⟩ := by
  simp only [button_work, BUTTON_LONG_PRESS_MS]
  norm_num

/-- C6: a press-then-release completing in under the 3000 ms threshold
emits exactly one short-press toggle event and zero long-press events; a
press held past 3000 ms emits exactly one long-press event and zero
short-press events (whether released later or still held at test end);
and whenever the button is released before the timer's due time, no
long-press event ever fires. -/
theorem button_state_machine_spec :
    (∀ t0 t1, t0 < t1 → t1 - t0 < 3000 →
      (button_scenario_release t0 t1).shorts = 1 ∧
        (button_scenario_release t0 t1).longs = 0) ∧
      (∀ t0 t1, t0 < t1 → 3000 < t1 - t0 →
        (button_scenario_release t0 t1).shorts = 0 ∧
          (button_scenario_release t0 t1).longs = 1) ∧
      (∀ t0 tend, t0 + 3000 ≤ tend →
        (button_scenario_hold t0 tend).shorts = 0 ∧
          (button_scenario_hold t0 tend).longs = 1) ∧
      (∀ t0 t1, t1 < t0 + 3000 → (button_scenario_release t0 t1).longs = 0) := by
  refine ⟨?_, ?_, ?_, ?_⟩
  · intro t0 t1 h0 h
    simp only [button_scenario_release, button_press_eq, eq_self_iff_true, true_and]
    rw [if_neg (by omega : ¬ t0 + 3000 < t1), button_release_eq, if_pos h]
    exact ⟨rfl, rfl⟩
  · intro t0 t1 h0 h
    simp only [button_scenario_release, button_press_eq, eq_self_iff_true, true_and]
    rw [if_pos (by omega : t0 + 3000 < t1), button_fire_eq, button_release_eq,
        if_neg (by omega : ¬ t1 - t0 < 3000)]
    exact ⟨rfl, rfl⟩
  · intro t0 tend h
    simp only [button_scenario_hold, button_press_eq, eq_self_iff_true, true_and]
    rw [if_pos h, button_fire_eq]
    exact ⟨rfl, rfl⟩
  · intro t0 t1 h
    simp only [button_scenario_release, button_press_eq, eq_self_iff_true, true_and]
    rw [if_neg (by omega : ¬ t0 + 3000 < t1), button_release_eq]
    split_ifs <;> rfl

/-- Witness for C6: a press at 100 released at 600 (held 500 ms) gives
one short press and no long press; a press at 0 held through 5000 gives
one long press and no short press. -/
theorem button_state_machine_spec_witness :
    ((button_scenario_release 100 600).shorts = 1 ∧
        (button_scenario_release 100 600).longs = 0) ∧
      (button_scenario_hold 0 5000).shorts = 0 ∧
        (button_scenario_hold 0 5000).longs = 1 :=
  ⟨button_state_machine_spec.1 100 600 (by decide) (by decide),
   button_state_machine_spec.2.2.1 0 5000 (by decide)⟩

end LedCopper
